import Mathlib

/-!
Shallow embedding of the CursorFocus analyzer (`src/analyzers.py`,
`src/config.py`, `src/content_generator.py`, `src/project_detector.py`,
`src/auto_updater.py`).

Python dictionaries are embedded either as ordered association lists (when
iteration order matters) or as lookup functions; Python's `re` module is
abstracted by an oracle (`ReOracle`) supplying the match results that
`re.finditer` would return, since regex matching semantics live outside the
embedding.  File I/O is modelled by an explicit `String → Except String String`
read function (errors stand for `IOError` / `UnicodeDecodeError`), and the
Python `try/except` wrappers become `Except`-catching at the same boundaries
as in the source.
-/

namespace CursorFocus

/-- `config.py` `IGNORED_KEYWORDS`: keywords never treated as function names. -/
def IGNORED_KEYWORDS : List String :=
  ["if", "switch", "while", "for", "catch", "finally", "else", "return",
   "break", "continue", "case", "default", "to", "from", "import", "as",
   "try", "except", "raise", "with", "async", "await", "yield", "assert",
   "pass", "del", "print", "in", "is", "not", "and", "or", "lambda",
   "global", "nonlocal", "class", "def", "n", "lines", "directly"]

/-- `config.py` `NON_CODE_EXTENSIONS`: documentation and data files that are
not analyzed for functions. -/
def NON_CODE_EXTENSIONS : List String :=
  [".md", ".txt", ".log", ".json", ".yaml", ".yml", ".toml", ".ini", ".cfg",
   ".conf", ".config", ".markdown", ".rst", ".rdoc", ".csv", ".tsv"]

/-- `config.py` `CODE_EXTENSIONS`: extensions analyzed for code. -/
def CODE_EXTENSIONS : List String :=
  [".js", ".jsx", ".ts", ".tsx", ".py", ".java", ".cpp", ".c", ".h",
   ".hpp", ".cs", ".go", ".rb", ".php", ".phtml", ".ctp",
   ".swift", ".kt", ".kts", ".lua"]

/-- `config.py` `FUNCTION_PATTERNS`: the per-language regex pattern registry,
in declaration order, with the exact pattern source strings. -/
def FUNCTION_PATTERNS : List (String × String) :=
  [("standard", "(?:^|\\s+)(?:function\\s+([a-zA-Z_]\\w*)|(?:const|let|var)\\s+([a-zA-Z_]\\w*)\\s*=\\s*(?:async\\s*)?function)"),
   ("arrow", "(?:^|\\s+)(?:const|let|var)\\s+([a-zA-Z_]\\w*)\\s*=\\s*(?:async\\s*)?(?:\\([^)]*\\)|[^=])\\s*=>"),
   ("method", "\\b([a-zA-Z_]\\w*)\\s*:\\s*(?:async\\s*)?function"),
   ("class_method", "(?:^|\\s+)(?:async\\s+)?([a-zA-Z_]\\w*)\\s*\\([^)]*\\)\\s*\x7b"),
   ("object_property", "([a-zA-Z_]\\w*)\\s*:\\s*(?:\\([^)]*\\)|[^=])\\s*=>"),
   ("php_function", "(?:public\\s+|private\\s+|protected\\s+)?function\\s+([a-zA-Z_]\\w*)\\s*\\("),
   ("php_class_method", "(?:public\\s+|private\\s+|protected\\s+)function\\s+([a-zA-Z_]\\w*)\\s*\\("),
   ("cpp_function", "(?:virtual\\s+)?(?:static\\s+)?(?:inline\\s+)?(?:const\\s+)?(?:\\w+(?:::\\w+)*\\s+)?([a-zA-Z_]\\w*)\\s*\\([^)]*\\)(?:\\s*const)?(?:\\s*noexcept)?(?:\\s*override)?(?:\\s*final)?(?:\\s*=\\s*0)?(?:\\s*=\\s*default)?(?:\\s*=\\s*delete)?(?:\x7b|;)"),
   ("csharp_method", "(?:public|private|protected|internal|static|virtual|override|abstract|sealed|async)\\s+(?:\\w+(?:<[^>]+>)?)\\s+([a-zA-Z_]\\w*)\\s*\\([^)]*\\)"),
   ("c_function", "(?:static\\s+)?(?:inline\\s+)?(?:const\\s+)?(?:\\w+(?:\\s*\\*)*\\s+)?([a-zA-Z_]\\w*)\\s*\\([^)]*\\)(?:\\s*\x7b|;)"),
   ("kotlin_function", "(?:fun\\s+)?([a-zA-Z_]\\w*)\\s*(?:<[^>]+>)?\\s*\\([^)]*\\)(?:\\s*:\\s*[^\x7b]+)?\\s*\x7b"),
   ("kotlin_property", "(?:val|var)\\s+([a-zA-Z_]\\w*)\\s*(?::\\s*[^=]+)?\\s*=\\s*\x7b"),
   ("swift_function", "(?:func\\s+)([a-zA-Z_]\\w*)\\s*(?:<[^>]+>)?\\s*\\([^)]*\\)(?:\\s*->\\s*[^\x7b]+)?\\s*\x7b"),
   ("swift_property", "(?:var|let)\\s+([a-zA-Z_]\\w*)\\s*:\\s*[^\x7b]+\\s*\x7b\\s*(?:get|set|willSet|didSet)"),
   ("go_function", "func\\s+([a-zA-Z_]\\w*)\\s*\\([^)]*\\)(?:\\s*\\([^)]*\\))?\\s*\x7b"),
   ("go_method", "func\\s*\\([^)]*\\)\\s*([a-zA-Z_]\\w*)\\s*\\([^)]*\\)(?:\\s*\\([^)]*\\))?\\s*\x7b"),
   ("lua_function", "(?:local\\s+)?function\\s+([a-zA-Z_]\\w*(?:\\.[a-zA-Z_]\\w*)*)\\s*\\([^)]*\\)"),
   ("lua_method", "function\\s+[a-zA-Z_]\\w*:([a-zA-Z_]\\w*)\\s*\\([^)]*\\)")]

/-- `analyzers.py` `get_combined_pattern`: wrap each registered pattern in a
non-capturing group and join with alternation. -/
def get_combined_pattern : String :=
  String.intercalate "|" (FUNCTION_PATTERNS.map (fun p => "(?:" ++ p.2 ++ ")"))

/-- Count the capturing groups of a regex source string: a `(` that is neither
escaped by a backslash nor followed by `?` opens a capturing group (no
registered pattern puts `(` inside a character class). -/
def countCapGroupsAux : List Char → Nat
  | [] => 0
  | '\\' :: _ :: rest => countCapGroupsAux rest
  | '\\' :: [] => 0
  | '(' :: '?' :: rest => countCapGroupsAux ('?' :: rest)
  | '(' :: rest => 1 + countCapGroupsAux rest
  | _ :: rest => countCapGroupsAux rest

/-- Number of capturing groups of a regex pattern string. -/
def countCapturingGroups (pattern : String) : Nat :=
  countCapGroupsAux pattern.toList

/-- Python `str.split(sep)` for a one-character separator, on character
lists: split at every occurrence, keeping empty parts. -/
def pySplitAux (sep : Char) : List Char → List (List Char)
  | [] => [[]]
  | c :: rest =>
    match pySplitAux sep rest with
    | [] => [[]]
    | cur :: done =>
      if c = sep then [] :: cur :: done else (c :: cur) :: done

/-- Python `str.split(sep)` for a one-character separator. -/
def pySplit (sep : Char) (s : String) : List String :=
  (pySplitAux sep s.toList).map (fun l => String.mk l)

/-- Python `str.lower()` (ASCII case mapping). -/
def pyLower (s : String) : String :=
  String.mk (s.toList.map Char.toLower)

/-- Python `str.endswith(suffix)`. -/
def pyEndsWith (s suffix : String) : Bool :=
  decide (suffix.toList <:+ s.toList)

/-- Python `int(s)` for the unsigned decimal literals appearing in version
components; `none` models the `ValueError` raised on any other string. -/
def pyToNat? (s : String) : Option Nat :=
  let cs := s.toList
  if cs ≠ [] ∧ cs.all Char.isDigit then
    some (cs.foldl (fun acc c => acc * 10 + (c.toNat - '0'.toNat)) 0)
  else none

/-- `os.path.splitext(filename)[1].lower()` as used throughout the source:
the lower-cased extension of the path's basename, empty when the basename has
no dot or only leading dots before its last dot. -/
def extOf (file_path : String) : String :=
  let base :=
    match (pySplit '/' file_path).getLast? with
    | some b => b
    | none => file_path
  let cs := base.toList
  match cs.reverse.findIdx? (· = '.') with
  | none => ""
  | some k =>
    let p := cs.length - 1 - k
    if (cs.take p).all (· = '.') then ""
    else pyLower (String.mk (cs.drop p))

/-- `analyzers.py` `is_binary_file`: extension in the binary set (from
configuration) or in the fixed non-code documentation set. -/
def is_binary_file (binaryExtensions : List String) (filename : String) : Bool :=
  let ext := extOf filename
  binaryExtensions.contains ext || NON_CODE_EXTENSIONS.contains ext

/-- Oracle abstracting Python's `re` module and the description-synthesis
heuristics of `analyzers.py` (`parse_comments` / `extract_function_context` /
the verb templates).  `lineMatches line` is the sequence of first-non-None
capturing-group values produced by `re.finditer(combined_pattern, line)` in
match order; `globalMatches content` is the sequence of
`(first-non-None group, match.start())` pairs produced by
`re.finditer(combined_pattern, content, re.MULTILINE | re.DOTALL)`;
`describe content name start` is the base description string computed at
lines 302-337 of `analyzers.py` before the duplicate alert is appended
(an `Except.error` stands for a Python exception raised inside that
computation). -/
structure ReOracle where
  lineMatches : String → List String
  globalMatches : String → List (String × Nat)
  describe : String → String → Nat → Except String String

/-- The filter at `analyzers.py:46` and `analyzers.py:299`: a candidate name
is kept when it is non-empty (truthy) and its lower-casing is not an ignored
keyword. -/
def keepName (n : String) : Bool :=
  n ≠ "" && !(IGNORED_KEYWORDS.contains (pyLower n))

/-- The line scan of `find_duplicate_functions` (`analyzers.py:41-49`),
specialised to one function name `f`: the 1-based line numbers (`i` is the
number of the first listed line) at which the combined pattern yields `f` as
a kept candidate name, with multiplicity, in scan order.  This is the value
`function_lines[f]` holds after the loop. -/
def function_lines_aux (lm : String → List String) (f : String) :
    Nat → List String → List Nat
  | _, [] => []
  | i, l :: rest =>
    (((lm l).filter keepName).filter (· = f)).map (fun _ => i)
      ++ function_lines_aux lm f (i + 1) rest

/-- `function_lines[f]` for the full file content: lines are
`content.split('\n')` enumerated from 1. -/
def function_lines (lm : String → List String) (content f : String) :
    List Nat :=
  function_lines_aux lm f 1 (pySplit '\n' content)

/-- `analyzers.py` `find_duplicate_functions`, as the lookup function of the
returned dict: a name mapped to `(lines[0], len(lines))` when it was recorded
on more than one occurrence, absent otherwise. -/
def find_duplicate_functions (lm : String → List String) (content f : String) :
    Option (Nat × Nat) :=
  match function_lines lm content f with
  | [] => none
  | [_] => none
  | a :: _ :: rest => some (a, rest.length + 2)

/-- The duplicate-alert suffix of `analyzers.py:342` (the source file stores
the mojibake characters U+00F0 U+0178 U+201D U+201E, not a real emoji). -/
def dupAlertSuffix (count first_line : Nat) : String :=
  " **ðŸ”„ Duplicate Alert: Function appears "
    ++ toString count ++ " times (first occurrence: line "
    ++ toString first_line ++ ")**"

/-- Lines 340-342 of `analyzers.py`: append the duplicate alert when the name
is in the duplicates dict. -/
def applyDupAlert (lm : String → List String) (content f d : String) : String :=
  match find_duplicate_functions lm content f with
  | some (first_line, count) => d ++ dupAlertSuffix count first_line
  | none => d

/-- The match loop of `analyze_file_content` (`analyzers.py:297-344`):
filter out falsy / keyword names, synthesize a description, append the
duplicate alert, and collect `(name, final_description)` pairs in match
order.  An exception from the description synthesis aborts the whole loop
(it propagates to the `except` at the function boundary). -/
def buildFunctions (R : ReOracle) (content : String) :
    List (String × Nat) → Except String (List (String × String))
  | [] => .ok []
  | (n, st) :: rest =>
    if keepName n then
      match R.describe content n st with
      | .error e => .error e
      | .ok d =>
        match buildFunctions R content rest with
        | .error e => .error e
        | .ok fns => .ok ((n, applyDupAlert R.lineMatches content n d) :: fns)
    else buildFunctions R content rest

/-- The body of `analyze_file_content` (`analyzers.py:277-346`) before the
`except` handler: skip binary/non-code extensions, read the file (an
`Except.error` read models `IOError` / `UnicodeDecodeError`), skip
non-code-extension files, and otherwise run the match loop and count lines. -/
def analyze_file_content_body (R : ReOracle) (binaryExtensions : List String)
    (fs : String → Except String String) (file_path : String) :
    Except String (List (String × String) × Nat) :=
  if is_binary_file binaryExtensions file_path then .ok ([], 0)
  else
    match fs file_path with
    | .error e => .error e
    | .ok content =>
      if !(CODE_EXTENSIONS.contains (extOf file_path)) then .ok ([], 0)
      else
        match buildFunctions R content (R.globalMatches content) with
        | .error e => .error e
        | .ok fns => .ok (fns, (pySplit '\n' content).length)

/-- `analyzers.py` `analyze_file_content`: the body wrapped in the
`try/except` of lines 277 and 347-349 — any error yields `([], 0)`. -/
def analyze_file_content (R : ReOracle) (binaryExtensions : List String)
    (fs : String → Except String String) (file_path : String) :
    List (String × String) × Nat :=
  match analyze_file_content_body R binaryExtensions fs file_path with
  | .ok r => r
  | .error _ => ([], 0)

/-- `config.py` `get_default_config()['file_length_standards']`, the
per-extension recommended line limits, in declaration order. -/
def defaultFileLengthStandards : List (String × Nat) :=
  [(".js", 300), (".jsx", 250), (".ts", 300), (".tsx", 250), (".py", 400),
   (".css", 400), (".scss", 400), (".less", 400), (".sass", 400),
   (".html", 300), (".vue", 250), (".svelte", 250), (".json", 100),
   (".yaml", 100), (".yml", 100), (".toml", 100), (".md", 500),
   (".rst", 500), ("default", 300), (".swift", 400), (".kt", 300),
   (".kts", 200)]

/-- `config.py` `get_file_length_limit`:
`FILE_LENGTH_STANDARDS.get(ext, FILE_LENGTH_STANDARDS.get('default', 300))`,
with the standards mapping (loaded from configuration) passed explicitly. -/
def get_file_length_limit (standards : List (String × Nat))
    (file_path : String) : Nat :=
  match standards.lookup (extOf file_path) with
  | some v => v
  | none => (standards.lookup "default").getD 300

/-- The file-length ratio thresholds dict of `content_generator.py:34-38`,
with the fields Python accesses (`warning`, `critical`, `severe`). -/
structure Thresholds where
  warning : ℚ
  critical : ℚ
  severe : ℚ

/-- The default thresholds `{'warning': 1.0, 'critical': 1.5, 'severe': 2.0}`. -/
def defaultThresholds : Thresholds := ⟨1, 3 / 2, 2⟩

/-- Python `int()` truncation toward zero on a rational value (float rounding
noise of the CPython evaluation is not modelled). -/
def pyTrunc (q : ℚ) : Int :=
  if 0 ≤ q then ⌊q⌋ else ⌈q⌉

/-- `content_generator.py` `get_file_length_alert`: `line_count / limit` is
computed with no zero guard — a zero `limit` raises `ZeroDivisionError`,
modelled as the `Except.error` branch; otherwise the ratio is tested against
the severe, critical and warning thresholds in that order. -/
def get_file_length_alert (line_count : Nat) (limit : ℚ) (th : Thresholds) :
    Except Unit (Option (String × String)) :=
  if limit = 0 then .error ()
  else
    let ratio : ℚ := (line_count : ℚ) / limit
    if ratio ≥ th.severe then
      .ok (some ("severe",
        "🚨 Critical-Length Alert: File is more than "
          ++ toString (pyTrunc (th.severe * 100))
          ++ "% of recommended length"))
    else if ratio ≥ th.critical then
      .ok (some ("critical",
        "⚠️ High-Length Alert: File is more than "
          ++ toString (pyTrunc (th.critical * 100))
          ++ "% of recommended length"))
    else if ratio ≥ th.warning then
      .ok (some ("warning", "📄 Length Alert: File exceeds recommended length"))
    else .ok none

/-- The severity component of `get_file_length_alert`'s result. -/
def alert_level (line_count : Nat) (limit : ℚ) (th : Thresholds) :
    Except Unit (Option String) :=
  (get_file_length_alert line_count limit th).map (Option.map Prod.fst)

/-- The metrics counters of `content_generator.py` `ProjectMetrics` that the
per-file loop updates (`files_by_type` / `lines_by_type` as lookup
functions; the alert counters and rendering are independent of these). -/
structure ProjectMetrics where
  total_files : Nat
  total_lines : Nat
  files_by_type : String → Nat
  lines_by_type : String → Nat

/-- Fresh `ProjectMetrics()` counters. -/
def initMetrics : ProjectMetrics := ⟨0, 0, fun _ => 0, fun _ => 0⟩

/-- The per-file decision flow of `generate_focus_content`
(`content_generator.py:78-105`) restricted to the metrics counters: skip
configured ignored-file suffixes, skip files `is_binary_file` accepts
(binary or non-code extensions), count the file, analyze it, and — only when
it yielded functions or a positive line count — add its line count to
`total_lines` and the per-extension maps. -/
def processFile (binaryExtensions ignoredFiles : List String)
    (analyze : String → List (String × String) × Nat)
    (m : ProjectMetrics) (file : String) : ProjectMetrics :=
  if ignoredFiles.any (fun ig => pyEndsWith file (String.mk (ig.toList.filter (· ≠ '*')))) then m
  else if is_binary_file binaryExtensions file then m
  else
    let m1 := { m with total_files := m.total_files + 1 }
    let r := analyze file
    if r.1 ≠ [] ∨ 0 < r.2 then
      let ext := extOf file
      { m1 with
        files_by_type := fun e =>
          if e = ext then m1.files_by_type e + 1 else m1.files_by_type e
        lines_by_type := fun e =>
          if e = ext then m1.lines_by_type e + r.2 else m1.lines_by_type e
        total_lines := m1.total_lines + r.2 }
    else m1

/-- One entry of `project_detector.py` `PROJECT_TYPES`. -/
structure ProjectTypeRule where
  name : String
  description : String
  indicators : List String
  required_files : List String

/-- `project_detector.py` `PROJECT_TYPES` in declaration order. -/
def PROJECT_TYPES : List ProjectTypeRule :=
  [⟨"python", "Python Project",
    ["setup.py", "requirements.txt", "Pipfile", "pyproject.toml"], []⟩,
   ⟨"node_js", "Node.js Project",
    ["package.json", "package-lock.json", "yarn.lock"], []⟩,
   ⟨"php", "PHP Project", ["composer.json", "composer.lock", "artisan"], []⟩,
   ⟨"java", "Java Project", ["pom.xml", "build.gradle", "gradlew"], []⟩,
   ⟨"dotnet", ".NET Project", [".sln", ".csproj", ".vbproj", ".fsproj"], []⟩,
   ⟨"go", "Go Project", ["go.mod", "go.sum"], []⟩,
   ⟨"rust", "Rust Project", ["Cargo.toml", "Cargo.lock"], []⟩,
   ⟨"flutter", "Flutter Project", ["pubspec.yaml", "pubspec.lock"], []⟩,
   ⟨"android", "Android Project",
    ["build.gradle", "settings.gradle", "gradlew"], []⟩,
   ⟨"ios", "iOS Project", ["*.xcodeproj", "*.xcworkspace", "Podfile"], []⟩,
   ⟨"web", "Web Project",
    ["index.html", "webpack.config.js", "vite.config.js"], []⟩,
   ⟨"docker", "Docker Project", ["Dockerfile", "docker-compose.yml"], []⟩,
   ⟨"git", "Git Repository", [".git"], []⟩]

/-- The common development files of the `generic_dev` fallback
(`project_detector.py:132-141`). -/
def COMMON_DEV_FILES : List String :=
  ["README.md", ".gitignore", "LICENSE", "CHANGELOG.md",
   "docs/", "src/", "test/", "tests/"]

/-- The indicator test of `project_detector.py:109-119`.  A wildcard
indicator is turned into the regex `indicator.replace('.','[.]')
.replace('*','.*')` and prefix-matched with `re.match`; for the registered
wildcard indicators (all of the form `*suffix`) this holds exactly when some
directory entry contains `suffix` as a substring.  A plain indicator must be
a directory entry. -/
def indicator_matches (files : List String) (ind : String) : Bool :=
  if ind.toList.contains '*' then
    files.any (fun f => decide ((ind.drop 1).toList <:+: f.toList))
  else files.contains ind

/-- The type-selection loop of `detect_project_type`
(`project_detector.py:107-124`): an indicator match overwrites the running
`project_type` but `break`s only the inner loop, so iteration continues over
later rules; only the required-files branch (whose guard is falsy for every
registered rule, all `required_files` being empty) would break the outer
loop. -/
def detectTypeLoop (files : List String) :
    String → List ProjectTypeRule → String
  | acc, [] => acc
  | acc, r :: rest =>
    let acc' := if r.indicators.any (indicator_matches files) then r.name
      else acc
    if r.required_files ≠ [] ∧ r.required_files.all files.contains then r.name
    else detectTypeLoop files acc' rest

/-- The `type` field computed by `project_detector.py` `detect_project_type`
for a listable directory with entries `files` (language / framework detection
is independent of the type selection): the loop result, with the `generic` →
`generic_dev` fallback of lines 131-144. -/
def detect_project_type (files : List String) : String :=
  let pt := detectTypeLoop files "generic" PROJECT_TYPES
  if pt = "generic" ∧ COMMON_DEV_FILES.any files.contains then "generic_dev"
  else pt

/-- Modelled from the spec: "evaluates an ordered table ... and returns the
first match, defaulting to `generic`" — the first rule in table order whose
indicator files match.  Stated only to compare against the source's
`detect_project_type`. -/
def detect_project_type_spec_first (files : List String) : String :=
  match PROJECT_TYPES.find? (fun r => r.indicators.any (indicator_matches files)) with
  | some r => r.name
  | none => "generic"

/-- The last rule in table order whose indicator files match, used to
characterise what the source loop actually returns. -/
def lastMatchingType (files : List String) :
    List ProjectTypeRule → Option String
  | [] => none
  | r :: rest =>
    match lastMatchingType files rest with
    | some n => some n
    | none =>
      if r.indicators.any (indicator_matches files) then some r.name else none

/-- `str.lstrip('v')`: drop every leading `v`. -/
def stripV (s : String) : String :=
  String.mk (s.toList.dropWhile (· = 'v'))

/-- The comparison loop of `AutoUpdater._is_newer_version`
(`auto_updater.py:119-124`) over zipped version components.  `int()` is
modelled by `String.toNat?` (version components are unsigned decimal
literals); a component that does not parse raises `ValueError`, modelled as
`none`. -/
def versionPairsNewer : List (String × String) → Option Bool → Option Bool
  | [], tieBreak => tieBreak
  | (l, c) :: rest, tieBreak =>
    match pyToNat? l, pyToNat? c with
    | some x, some y =>
      if x > y then some true
      else if x < y then some false
      else versionPairsNewer rest tieBreak
    | _, _ => none

/-- `AutoUpdater._is_newer_version`: strip leading `v`s from `latest`, split
both on `.`, compare componentwise numerically, and break ties by component
count.  `none` models the `ValueError` that `int()` raises on a non-numeric
component. -/
def is_newer_version (latest current : String) : Option Bool :=
  let l := pySplit '.' (stripV latest)
  let c := pySplit '.' current
  versionPairsNewer (l.zip c) (some (decide (l.length > c.length)))

/-- The fields of the GitHub release object that
`AutoUpdater.check_for_updates` / `AutoUpdater.update` consume. -/
structure Release where
  tag_name : String
  zipball_url : String
deriving DecidableEq

/-- `AutoUpdater.check_for_updates` (`auto_updater.py:16-40`):
`shouldCheck` is `_should_check_updates()`; `response` is the result of the
`requests.get` on `releases/latest` (`none` = network exception);
`current` is `_get_current_version()`.  Any exception — including the
`ValueError` from `_is_newer_version` on non-numeric components — is caught
and yields `none`. -/
def check_for_updates (shouldCheck : Bool)
    (response : Option (Nat × Release)) (current : String) : Option Release :=
  if !shouldCheck then none
  else
    match response with
    | none => none
    | some (status, rel) =>
      if status ≠ 200 then none
      else
        match is_newer_version rel.tag_name current with
        | none => none
        | some b => if b then some rel else none

/-- The local installation directory as an association list
`file name ↦ content`. -/
abbrev FS := List (String × String)

/-- Overwrite-or-create a file (what `open(..., 'wb')` / `shutil.copy2` /
`shutil.copytree` after `rmtree` do to one entry of the installation). -/
def fsSet (fs : FS) (k v : String) : FS :=
  match fs with
  | [] => [(k, v)]
  | (k', v') :: rest => if k' = k then (k, v) :: rest
    else (k', v') :: fsSet rest k v

/-- `os.remove`. -/
def fsRemove (fs : FS) (k : String) : FS :=
  match fs with
  | [] => []
  | (k', v') :: rest => if k' = k then rest else (k', v') :: fsRemove rest k

/-- `AutoUpdater._extract_and_update` (`auto_updater.py:126-151`) acting on
the installation directory: `archive = none` models a corrupt zip
(`zipfile.BadZipFile` on open, before any copy); otherwise the extracted
entries are copied over the installation one at a time, and a copy failure
(`copyFails item = true`, e.g. a permission error) raises mid-loop, leaving
the already-copied entries in place — the `Except.error` carries the state
at the raise point.  Temporary-directory bookkeeping is outside the
installation model. -/
def extract_and_update (fs : FS) (archive : Option (List (String × String)))
    (copyFails : String → Bool) : Except FS FS :=
  match archive with
  | none => .error fs
  | some items => copyLoop fs items
where
  copyLoop : FS → List (String × String) → Except FS FS
    | fs, [] => .ok fs
    | fs, (n, c) :: rest =>
      if copyFails n then .error fs else copyLoop (fsSet fs n c) rest

/-- `AutoUpdater.update` (`auto_updater.py:42-70`): download the zipball
(`response = none` models a network exception), stop on a non-200 status,
write `update.zip` into the installation directory, extract-and-copy, remove
the zip, persist the stripped tag to `version.txt`, and return `True`; any
exception is caught, logged and turned into `False`, with the filesystem
left exactly as it was at the raise point. -/
def update (fs : FS) (response : Option (Nat × String))
    (archive : Option (List (String × String))) (copyFails : String → Bool)
    (tag : String) : Bool × FS :=
  match response with
  | none => (false, fs)
  | some (status, content) =>
    if status ≠ 200 then (false, fs)
    else
      let fs1 := fsSet fs "update.zip" content
      match extract_and_update fs1 archive copyFails with
      | .error fs2 => (false, fs2)
      | .ok fs2 =>
        let fs3 := fsRemove fs2 "update.zip"
        (true, fsSet fs3 "version.txt" (stripV tag))

/-- Per-line kept-candidate count for one name: how many matches of the
combined pattern on `l` yield `f` as a kept candidate name. -/
def countOnLine (lm : String → List String) (f l : String) : Nat :=
  (((lm l).filter keepName).filter (· = f)).length

/-- Concrete two-duplicate example file used to instantiate the duplicate
claims: `foo` is declared on lines 1 and 3. -/
def exContent : String :=
  "function foo() \x7b\nx = 1\nfunction foo() \x7b"

/-- Concrete regex-oracle instance for the example file: the combined
pattern extracts `foo` from each of the two declaration lines, and the
whole-text scan yields the two corresponding matches. -/
def exOracle : ReOracle where
  lineMatches := fun l => if l = "function foo() \x7b" then ["foo"] else []
  globalMatches := fun c => if c = exContent then [("foo", 0), ("foo", 24)] else []
  describe := fun _ _ _ => .ok "Retrieves data from the example"

/-- Concrete one-file filesystem serving the example file as `a.js`. -/
def exFs : String → Except String String :=
  fun p => if p = "a.js" then .ok exContent else .error "unreadable"

lemma map_const_eq_replicate {α β : Type} (xs : List α) (b : β) :
    xs.map (fun _ => b) = List.replicate xs.length b := by
  induction xs with
  | nil => rfl
  | cons x rest ih => simp [List.replicate, ih]

lemma function_lines_aux_pair (lm : String → List String) (f : String)
    (i j : Nat) (hij : i < j) (ls : List String) :
    ∀ (start : Nat),
      (∀ k, k < ls.length → countOnLine lm f (ls.getD k "") =
          if start + k = i ∨ start + k = j then 1 else 0) →
      function_lines_aux lm f start ls =
        (if start ≤ i ∧ i < start + ls.length then [i] else []) ++
        (if start ≤ j ∧ j < start + ls.length then [j] else []) := by
  induction ls with
  | nil =>
    intro start _
    simp only [function_lines_aux, List.length_nil]
    split_ifs <;> first | rfl | omega
  | cons l rest ih =>
    intro start h
    have h0 : countOnLine lm f l = if start = i ∨ start = j then 1 else 0 := by
      have := h 0 (by simp)
      simpa using this
    have hrest : ∀ k, k < rest.length → countOnLine lm f (rest.getD k "") =
        if (start + 1) + k = i ∨ (start + 1) + k = j then 1 else 0 := by
      intro k hk
      have := h (k + 1) (by simp; omega)
      simp only [List.getD_cons_succ] at this
      rw [this]
      exact if_congr (by omega) rfl rfl
    have ihr := ih (start + 1) hrest
    show (((lm l).filter keepName).filter (· = f)).map (fun _ => start)
        ++ function_lines_aux lm f (start + 1) rest = _
    rw [map_const_eq_replicate, show (((lm l).filter keepName).filter (· = f)).length
        = countOnLine lm f l from rfl, h0, ihr]
    by_cases hsi : start = i
    · subst hsi
      rw [if_pos (Or.inl rfl)]
      simp only [List.length_cons]
      rw [if_neg (by omega : ¬ (start + 1 ≤ start ∧ start < start + 1 + rest.length)),
          if_pos (by omega : start ≤ start ∧ start < start + (rest.length + 1))]
      by_cases hjr : j < start + 1 + rest.length
      · rw [if_pos (by omega : start + 1 ≤ j ∧ j < start + 1 + rest.length),
            if_pos (by omega : start ≤ j ∧ j < start + (rest.length + 1))]
        rfl
      · rw [if_neg (by omega : ¬ (start + 1 ≤ j ∧ j < start + 1 + rest.length)),
            if_neg (by omega : ¬ (start ≤ j ∧ j < start + (rest.length + 1)))]
        rfl
    · by_cases hsj : start = j
      · subst hsj
        rw [if_pos (Or.inr rfl)]
        simp only [List.length_cons]
        rw [if_neg (by omega : ¬ (start + 1 ≤ i ∧ i < start + 1 + rest.length)),
            if_neg (by omega : ¬ (start + 1 ≤ start ∧ start < start + 1 + rest.length)),
            if_neg (by omega : ¬ (start ≤ i ∧ i < start + (rest.length + 1))),
            if_pos (by omega : start ≤ start ∧ start < start + (rest.length + 1))]
        rfl
      · rw [if_neg (show ¬ (start = i ∨ start = j) by omega)]
        simp only [List.length_cons, List.replicate_zero, List.nil_append]
        congr 1
        · exact if_congr (by omega) rfl rfl
        · exact if_congr (by omega) rfl rfl

lemma function_lines_pair (lm : String → List String) (content f : String)
    (i j : Nat) (h1 : 1 ≤ i) (hij : i < j)
    (hjlen : j ≤ (pySplit '\n' content).length)
    (hprof : ∀ k, k < (pySplit '\n' content).length →
      countOnLine lm f ((pySplit '\n' content).getD k "") =
        if k + 1 = i ∨ k + 1 = j then 1 else 0) :
    function_lines lm content f = [i, j] := by
  have hprof' : ∀ k, k < (pySplit '\n' content).length →
      countOnLine lm f ((pySplit '\n' content).getD k "") =
        if 1 + k = i ∨ 1 + k = j then 1 else 0 := by
    intro k hk
    rw [hprof k hk]
    exact if_congr (by omega) rfl rfl
  unfold function_lines
  rw [function_lines_aux_pair lm f i j hij _ 1 hprof',
      if_pos (by constructor <;> omega), if_pos (by constructor <;> omega)]
  rfl

lemma buildFunctions_mem (R : ReOracle) (content : String) :
    ∀ (ms : List (String × Nat)) (fns : List (String × String)),
      buildFunctions R content ms = .ok fns →
      ∀ p ∈ fns, ∃ st d, (p.1, st) ∈ ms ∧ keepName p.1 = true ∧
        R.describe content p.1 st = .ok d ∧
        p.2 = applyDupAlert R.lineMatches content p.1 d := by
  intro ms
  induction ms with
  | nil =>
    intro fns h p hp
    simp only [buildFunctions] at h
    cases h
    simp at hp
  | cons m rest ih =>
    intro fns h p hp
    obtain ⟨n, st⟩ := m
    simp only [buildFunctions] at h
    by_cases hk : keepName n
    · rw [if_pos hk] at h
      cases hd : R.describe content n st with
      | error e => rw [hd] at h; cases h
      | ok d =>
        rw [hd] at h
        cases hb : buildFunctions R content rest with
        | error e => rw [hb] at h; cases h
        | ok fns' =>
          rw [hb] at h
          cases h
          rcases List.mem_cons.mp hp with hhead | htail
          · subst hhead
            exact ⟨st, d, List.mem_cons_self _ _, hk, hd, rfl⟩
          · obtain ⟨st', d', hmem, hkeep, hdesc, heq⟩ := ih fns' hb p htail
            exact ⟨st', d', List.mem_cons_of_mem _ hmem, hkeep, hdesc, heq⟩
    · rw [if_neg hk] at h
      obtain ⟨st', d', hmem, hkeep, hdesc, heq⟩ := ih fns h p hp
      exact ⟨st', d', List.mem_cons_of_mem _ hmem, hkeep, hdesc, heq⟩

/-- C1: for a file whose text has exactly two declaration lines matching the
combined pattern with the same kept identifier `f`, at distinct 1-based line
numbers `i < j`, `find_duplicate_functions` maps `f` to `(i, 2)` — the
smaller line number paired with the occurrence count 2 — and every
`(f, description)` pair emitted by `analyze_file_content` carries the
duplicate-alert suffix mentioning the count 2 and the first line `i`. -/
theorem C1_duplicate_pair_recorded_and_alerted
    (R : ReOracle) (binExts : List String)
    (fs : String → Except String String) (path content f : String)
    (i j : Nat)
    (hread : fs path = .ok content)
    (hbin : is_binary_file binExts path = false)
    (hcode : CODE_EXTENSIONS.contains (extOf path) = true)
    (h1 : 1 ≤ i) (hij : i < j)
    (hjlen : j ≤ (pySplit '\n' content).length)
    (hprof : ∀ k, k < (pySplit '\n' content).length →
      countOnLine R.lineMatches f ((pySplit '\n' content).getD k "") =
        if k + 1 = i ∨ k + 1 = j then 1 else 0) :
    find_duplicate_functions R.lineMatches content f = some (i, 2) ∧
    ∀ p ∈ (analyze_file_content R binExts fs path).1, p.1 = f →
      ∃ base, p.2 = base ++ dupAlertSuffix 2 i := by
  have hdup : find_duplicate_functions R.lineMatches content f = some (i, 2) := by
    unfold find_duplicate_functions
    rw [function_lines_pair R.lineMatches content f i j h1 hij hjlen hprof]
    rfl
  refine ⟨hdup, ?_⟩
  intro p hp hpf
  unfold analyze_file_content at hp
  cases hbody : analyze_file_content_body R binExts fs path with
  | error e => rw [hbody] at hp; simp at hp
  | ok r =>
    rw [hbody] at hp
    unfold analyze_file_content_body at hbody
    rw [hbin] at hbody
    simp only [Bool.false_eq_true, if_false] at hbody
    rw [hread] at hbody
    rw [hcode] at hbody
    simp only [Bool.not_true, Bool.false_eq_true, if_false] at hbody
    cases hbf : buildFunctions R content (R.globalMatches content) with
    | error e => rw [hbf] at hbody; cases hbody
    | ok fns =>
      rw [hbf] at hbody
      cases hbody
      obtain ⟨st, d, _, _, _, heq⟩ := buildFunctions_mem R content _ fns hbf p hp
      rw [hpf] at heq
      rw [heq, applyDupAlert, hdup]
      exact ⟨d, rfl⟩

/-- Closed witness for C1 at the concrete example file: `foo` declared on
lines 1 and 3 of a three-line file. -/
theorem C1_witness :
    find_duplicate_functions exOracle.lineMatches exContent "foo" = some (1, 2) ∧
    ∀ p ∈ (analyze_file_content exOracle [] exFs "a.js").1, p.1 = "foo" →
      ∃ base, p.2 = base ++ dupAlertSuffix 2 1 :=
  C1_duplicate_pair_recorded_and_alerted exOracle [] exFs "a.js" exContent
    "foo" 1 3 rfl (by decide) (by decide) (by decide) (by decide)
    (by decide) (by decide)

/-- C2: `analyze_file_content` never lets an error cross the single-file
boundary: when the file read fails (unreadable or not UTF-8 decodable), and
more generally whenever the analysis body raises, the result is
`([], 0)` — the file contributes zero functions and zero lines. -/
theorem C2_bad_file_contributes_nothing
    (R : ReOracle) (binExts : List String)
    (fs : String → Except String String) (path : String) :
    ((∃ e, fs path = .error e) →
      analyze_file_content R binExts fs path = ([], 0)) ∧
    (∀ e, analyze_file_content_body R binExts fs path = .error e →
      analyze_file_content R binExts fs path = ([], 0)) := by
  constructor
  · rintro ⟨e, he⟩
    unfold analyze_file_content analyze_file_content_body
    by_cases hb : is_binary_file binExts path
    · rw [if_pos hb]
    · rw [if_neg hb, he]
  · intro e he
    unfold analyze_file_content
    rw [he]

/-- Closed witness for C2: a filesystem on which every read raises. -/
theorem C2_witness :
    analyze_file_content exOracle [] (fun _ => .error "io error") "b.py"
      = ([], 0) :=
  (C2_bad_file_contributes_nothing exOracle [] (fun _ => .error "io error")
    "b.py").1 ⟨"io error", rfl⟩

set_option maxRecDepth 8000 in
/-- C3 counterexample: the claim says every registered pattern has exactly
one capturing group, but the `standard` pattern has two (one per alternative
of its `function foo` / `const foo = function` alternation). -/
theorem C3_counterexample :
    countCapturingGroups ((FUNCTION_PATTERNS.lookup "standard").getD "") = 2 ∧
    ¬ (∀ p ∈ FUNCTION_PATTERNS, countCapturingGroups p.2 = 1) := by
  decide

set_option maxRecDepth 8000 in
/-- C3 amended: every registered pattern except `standard` has exactly one
capturing group; `standard` has two (at most one of which is non-None per
match, which is why the analyzer takes the first non-None group); and the
combined pattern is the alternation of all registered patterns, whose
capturing groups are exactly the registered patterns' groups combined. -/
theorem C3_amended_pattern_groups :
    (∀ p ∈ FUNCTION_PATTERNS, p.1 = "standard" ∨ countCapturingGroups p.2 = 1) ∧
    countCapturingGroups ((FUNCTION_PATTERNS.lookup "standard").getD "") = 2 ∧
    countCapturingGroups get_combined_pattern
      = (FUNCTION_PATTERNS.map (fun p => countCapturingGroups p.2)).sum := by
  decide

/-- Closed witness for C3's amended claim at the `lua_method` pattern. -/
theorem C3_witness :
    ("lua_method" : String) = "standard" ∨
    countCapturingGroups
      "function\\s+[a-zA-Z_]\\w*:([a-zA-Z_]\\w*)\\s*\\([^)]*\\)" = 1 :=
  C3_amended_pattern_groups.1
    ("lua_method", "function\\s+[a-zA-Z_]\\w*:([a-zA-Z_]\\w*)\\s*\\([^)]*\\)")
    (by decide)

/-- C7: a readable code file on which the combined pattern has zero matches
yields an empty function list together with the Python
`len(content.split('\n'))` line count. -/
theorem C7_no_matches_empty_functions
    (R : ReOracle) (binExts : List String)
    (fs : String → Except String String) (path content : String)
    (hread : fs path = .ok content)
    (hbin : is_binary_file binExts path = false)
    (hcode : CODE_EXTENSIONS.contains (extOf path) = true)
    (hmatches : R.globalMatches content = []) :
    analyze_file_content R binExts fs path
      = ([], (pySplit '\n' content).length) := by
  unfold analyze_file_content analyze_file_content_body
  rw [hbin]
  simp only [Bool.false_eq_true, if_false]
  rw [hread, hcode]
  simp only [Bool.not_true, Bool.false_eq_true, if_false]
  rw [hmatches]
  rfl

/-- Closed witness for C7: a one-line Python file with no matches. -/
theorem C7_witness :
    analyze_file_content
      ⟨fun _ => [], fun _ => [], fun _ _ _ => .ok ""⟩ []
      (fun _ => .ok "x = 1") "c.py" = ([], 1) :=
  C7_no_matches_empty_functions ⟨fun _ => [], fun _ => [], fun _ _ _ => .ok ""⟩
    [] (fun _ => .ok "x = 1") "c.py" "x = 1" rfl (by decide) (by decide) rfl

/-- Concrete five-line Markdown file served as `README.md`, used to
instantiate the non-code-file metrics claims. -/
def exMdFs : String → Except String String :=
  fun p => if p = "README.md" then .ok "a\nb\nc\nd\ne" else .error "unreadable"

/-- C4 counterexample: `.md` is a non-code extension, yet a five-line
`README.md` contributes nothing to the line-count metrics — `is_binary_file`
returns true for non-code extensions, so `generate_focus_content` `continue`s
past the file before any metrics update (it is not even counted in
`total_files`), contradicting the claim that such files still contribute
their line count. -/
theorem C4_counterexample :
    extOf "README.md" ∈ NON_CODE_EXTENSIONS ∧
    (pySplit '\n' "a\nb\nc\nd\ne").length = 5 ∧
    (processFile [] [] (analyze_file_content exOracle [] exMdFs)
      initMetrics "README.md").total_lines = 0 ∧
    (processFile [] [] (analyze_file_content exOracle [] exMdFs)
      initMetrics "README.md").lines_by_type ".md" = 0 ∧
    (processFile [] [] (analyze_file_content exOracle [] exMdFs)
      initMetrics "README.md").total_files = 0 := by
  refine ⟨by decide, by decide, ?_, ?_, ?_⟩ <;> rfl

/-- C4 amended: a file whose extension is in the documentation/data
(non-code) set is excluded from function scanning AND from the line-count
metrics: the Content Generator's per-file loop skips it before any metrics
update, and the analyzer returns `([], 0)` for it. -/
theorem C4_amended_non_code_contributes_nothing
    (binExts ignoredFiles : List String)
    (analyze : String → List (String × String) × Nat)
    (m : ProjectMetrics) (file : String)
    (h : extOf file ∈ NON_CODE_EXTENSIONS) :
    processFile binExts ignoredFiles analyze m file = m ∧
    ∀ (R : ReOracle) (fs : String → Except String String),
      analyze_file_content R binExts fs file = ([], 0) := by
  have hbin : is_binary_file binExts file = true := by
    simp only [is_binary_file, Bool.or_eq_true]
    exact Or.inr (List.elem_eq_true_of_mem h)
  constructor
  · unfold processFile
    by_cases hig : ignoredFiles.any
        (fun ig => pyEndsWith file (String.mk (ig.toList.filter (· ≠ '*'))))
    · rw [if_pos hig]
    · rw [if_neg hig, hbin]
      simp
  · intro R fs
    unfold analyze_file_content analyze_file_content_body
    rw [hbin]
    simp

/-- Closed witness for C4's amended claim at `README.md`. -/
theorem C4_amended_witness :
    processFile [] [] (fun _ => ([], 0)) initMetrics "README.md" = initMetrics ∧
    ∀ (R : ReOracle) (fs : String → Except String String),
      analyze_file_content R [] fs "README.md" = ([], 0) :=
  C4_amended_non_code_contributes_nothing [] [] (fun _ => ([], 0)) initMetrics
    "README.md" (by decide)

/-- C5 counterexample: the claim says the first matching rule of the ordered
table wins, but for a directory containing both `setup.py` (matching
`python`, evaluated first) and `package.json` (matching `node_js`, evaluated
later) the source returns `node_js`: an indicator match only breaks the
inner loop, so a later rule's match overwrites an earlier one's. -/
theorem C5_counterexample :
    detect_project_type ["setup.py", "package.json"] = "node_js" ∧
    detect_project_type_spec_first ["setup.py", "package.json"] = "python" ∧
    ("node_js" : String) ≠ "python" := by
  refine ⟨?_, ?_, by decide⟩ <;> rfl

/-- C5 amended: `detect_project_type` evaluates the rule table in declaration
order but returns the LAST type whose indicator files match (an indicator
match does not break the outer loop, and every registered rule's
`required_files` list is empty, so the only outer `break` is dead code); when
no rule matches it defaults to `generic`, upgraded to `generic_dev` when a
common development file is present.  A directory containing only `go.mod` is
still classified `go`. -/
theorem C5_amended_last_match_wins :
    (∀ files : List String,
      detect_project_type files =
        (let pt := (lastMatchingType files PROJECT_TYPES).getD "generic"
         if pt = "generic" ∧ COMMON_DEV_FILES.any files.contains
         then "generic_dev" else pt)) ∧
    detect_project_type ["go.mod"] = "go" := by
  have hreq : ∀ r ∈ PROJECT_TYPES, r.required_files = [] := by decide
  have key : ∀ (rules : List ProjectTypeRule),
      (∀ r ∈ rules, r.required_files = []) →
      ∀ (files : List String) (acc : String),
        detectTypeLoop files acc rules
          = (lastMatchingType files rules).getD acc := by
    intro rules
    induction rules with
    | nil => intro _ files acc; rfl
    | cons r rest ih =>
      intro h files acc
      have hr : r.required_files = [] := h r (List.mem_cons_self r rest)
      simp only [detectTypeLoop, lastMatchingType]
      rw [if_neg (by simp [hr])]
      rw [ih (fun x hx => h x (List.mem_cons_of_mem r hx)) files]
      cases hlast : lastMatchingType files rest with
      | some nm => rfl
      | none =>
        by_cases hm : r.indicators.any (indicator_matches files)
        · simp [hm]
        · simp [hm]
  refine ⟨?_, by rfl⟩
  intro files
  unfold detect_project_type
  rw [key PROJECT_TYPES hreq files "generic"]

lemma alert_level_eq (n : Nat) (L : ℚ) (th : Thresholds) (hL : ¬ L = 0) :
    alert_level n L th = .ok (
      if (n : ℚ) / L ≥ th.severe then some "severe"
      else if (n : ℚ) / L ≥ th.critical then some "critical"
      else if (n : ℚ) / L ≥ th.warning then some "warning"
      else none) := by
  unfold alert_level get_file_length_alert
  rw [if_neg hL]
  simp only [ge_iff_le]
  split_ifs <;> rfl

/-- C6: with the default thresholds (warning 1.0, critical 1.5, severe 2.0)
and a positive per-extension limit `L`, the alert level is `severe` iff
`n/L ≥ 2`, `critical` iff `1.5 ≤ n/L < 2`, `warning` iff `1 ≤ n/L < 1.5`,
and absent iff `n/L < 1`; concretely, the `.py` limit is 400 and 450, 650,
900, 300 lines yield warning, critical, severe, and no alert. -/
theorem C6_file_length_alert_thresholds (n : Nat) (L : ℚ) (hL : 0 < L) :
    (alert_level n L defaultThresholds = .ok (some "severe") ↔
      (n : ℚ) / L ≥ 2) ∧
    (alert_level n L defaultThresholds = .ok (some "critical") ↔
      (n : ℚ) / L ≥ 3 / 2 ∧ (n : ℚ) / L < 2) ∧
    (alert_level n L defaultThresholds = .ok (some "warning") ↔
      (n : ℚ) / L ≥ 1 ∧ (n : ℚ) / L < 3 / 2) ∧
    (alert_level n L defaultThresholds = .ok none ↔ (n : ℚ) / L < 1) ∧
    get_file_length_limit defaultFileLengthStandards "app.py" = 400 ∧
    alert_level 450 (400 : ℚ) defaultThresholds = .ok (some "warning") ∧
    alert_level 650 (400 : ℚ) defaultThresholds = .ok (some "critical") ∧
    alert_level 900 (400 : ℚ) defaultThresholds = .ok (some "severe") ∧
    alert_level 300 (400 : ℚ) defaultThresholds = .ok none := by
  have hchain := alert_level_eq n L defaultThresholds hL.ne'
  have e1 : defaultThresholds.severe = 2 := rfl
  have e2 : defaultThresholds.critical = 3 / 2 := rfl
  have e3 : defaultThresholds.warning = 1 := rfl
  rw [e1, e2, e3] at hchain
  rw [hchain]
  have hok : ∀ (x y : Option String),
      (Except.ok x : Except Unit (Option String)) = .ok y ↔ x = y := by
    intro x y
    constructor
    · intro hh; injection hh
    · intro hh; rw [hh]
  have hconc : ∀ (m : Nat), alert_level m (400 : ℚ) defaultThresholds
      = .ok (if (m : ℚ) / 400 ≥ 2 then some "severe"
        else if (m : ℚ) / 400 ≥ 3 / 2 then some "critical"
        else if (m : ℚ) / 400 ≥ 1 then some "warning" else none) := by
    intro m
    rw [alert_level_eq m 400 defaultThresholds (by norm_num), e1, e2, e3]
  refine ⟨?_, ?_, ?_, ?_, by rfl, ?_, ?_, ?_, ?_⟩
  case refine_5 =>
    rw [hconc 450, if_neg (by norm_num), if_neg (by norm_num),
      if_pos (by norm_num)]
  case refine_6 =>
    rw [hconc 650, if_neg (by norm_num), if_pos (by norm_num)]
  case refine_7 =>
    rw [hconc 900, if_pos (by norm_num)]
  case refine_8 =>
    rw [hconc 300, if_neg (by norm_num), if_neg (by norm_num),
      if_neg (by norm_num)]
  · rw [hok]
    split_ifs with h1 h2 h3
    · exact iff_of_true rfl h1
    · exact iff_of_false (by simp) h1
    · exact iff_of_false (by simp) h1
    · exact iff_of_false (by simp) h1
  · rw [hok]
    split_ifs with h1 h2 h3
    · exact iff_of_false (by simp)
        (by intro hc; rw [ge_iff_le] at h1; linarith [hc.2])
    · exact iff_of_true rfl ⟨h2, not_le.mp h1⟩
    · exact iff_of_false (by simp) (by intro hc; exact h2 hc.1)
    · exact iff_of_false (by simp) (by intro hc; exact h2 hc.1)
  · rw [hok]
    split_ifs with h1 h2 h3
    · exact iff_of_false (by simp)
        (by intro hc; rw [ge_iff_le] at h1; linarith [hc.2])
    · exact iff_of_false (by simp)
        (by intro hc; rw [ge_iff_le] at h2; linarith [hc.2])
    · exact iff_of_true rfl ⟨h3, not_le.mp h2⟩
    · exact iff_of_false (by simp) (by intro hc; exact h3 hc.1)
  · rw [hok]
    split_ifs with h1 h2 h3
    · exact iff_of_false (by simp)
        (by rw [ge_iff_le] at h1; intro hc; linarith)
    · exact iff_of_false (by simp)
        (by rw [ge_iff_le] at h2; intro hc; linarith)
    · exact iff_of_false (by simp)
        (by rw [ge_iff_le] at h3; intro hc; linarith)
    · exact iff_of_true rfl (not_le.mp h3)

/-- Closed witness for C6 at a 450-line `.py` file against the 400-line
limit. -/
theorem C6_witness :
    alert_level 450 (400 : ℚ) defaultThresholds = .ok (some "warning") :=
  (C6_file_length_alert_thresholds 450 400 (by norm_num)).2.2.2.2.2.1

/-- C10: `get_file_length_alert` divides by the limit with no zero guard —
for any nonzero limit it is total and yields exactly one of severe /
critical / warning / no alert (in that precedence), while a zero limit takes
the `ZeroDivisionError` branch; and `get_file_length_limit` returns 0 both
when the standards map the file's extension to 0 and when they map only
`default` to 0, so the error branch is reachable. -/
theorem C10_unguarded_division
    : (∀ (n : Nat) (L : ℚ) (th : Thresholds), L ≠ 0 →
        alert_level n L th = .ok (some "severe") ∨
        alert_level n L th = .ok (some "critical") ∨
        alert_level n L th = .ok (some "warning") ∨
        alert_level n L th = .ok none) ∧
      (∀ (n : Nat) (th : Thresholds),
        get_file_length_alert n 0 th = .error ()) ∧
      (∀ (standards : List (String × Nat)) (path : String),
        standards.lookup (extOf path) = some 0 →
        get_file_length_limit standards path = 0) ∧
      (∀ (standards : List (String × Nat)) (path : String),
        standards.lookup (extOf path) = none →
        standards.lookup "default" = some 0 →
        get_file_length_limit standards path = 0) := by
  refine ⟨?_, ?_, ?_, ?_⟩
  · intro n L th hL
    rw [alert_level_eq n L th hL]
    split_ifs <;> simp
  · intro n th
    unfold get_file_length_alert
    rw [if_pos rfl]
  · intro standards path h
    unfold get_file_length_limit
    rw [h]
  · intro standards path h h2
    unfold get_file_length_limit
    rw [h, h2]
    rfl

/-- Closed witness for C10: totality at 450/400, the zero-limit error
branch, and zero limits coming from the extension and the default key. -/
theorem C10_witness :
    (alert_level 450 (400 : ℚ) defaultThresholds = .ok (some "severe") ∨
     alert_level 450 (400 : ℚ) defaultThresholds = .ok (some "critical") ∨
     alert_level 450 (400 : ℚ) defaultThresholds = .ok (some "warning") ∨
     alert_level 450 (400 : ℚ) defaultThresholds = .ok none) ∧
    get_file_length_alert 450 0 defaultThresholds = .error () ∧
    get_file_length_limit [(".py", 0)] "app.py" = 0 ∧
    get_file_length_limit [("default", 0)] "app.py" = 0 :=
  ⟨C10_unguarded_division.1 450 400 defaultThresholds (by norm_num),
   C10_unguarded_division.2.1 450 defaultThresholds,
   C10_unguarded_division.2.2.1 [(".py", 0)] "app.py" rfl,
   C10_unguarded_division.2.2.2 [("default", 0)] "app.py" rfl rfl⟩

lemma versionPairsNewer_self (xs : List String) :
    versionPairsNewer (xs.zip xs) (some false) ≠ some true := by
  induction xs with
  | nil => simp [versionPairsNewer]
  | cons x rest ih =>
    show versionPairsNewer ((x, x) :: rest.zip rest) (some false) ≠ some true
    unfold versionPairsNewer
    cases hx : pyToNat? x with
    | none => simp
    | some v =>
      simp only [gt_iff_lt, lt_irrefl, if_false]
      exact ih

lemma is_newer_version_self (tag cur : String) (h : stripV tag = cur) :
    is_newer_version tag cur ≠ some true := by
  unfold is_newer_version
  rw [h]
  show versionPairsNewer ((pySplit '.' cur).zip (pySplit '.' cur))
      (some (decide ((pySplit '.' cur).length > (pySplit '.' cur).length)))
      ≠ some true
  have hlen : decide ((pySplit '.' cur).length > (pySplit '.' cur).length)
      = false := by simp
  rw [hlen]
  exact versionPairsNewer_self _

/-- C8 counterexample: a remote tag differing from the stored identifier
does NOT imply an update descriptor.  With stored version `2.0.0` and remote
tag `v1.0.0` (different strings), `check_for_updates` returns no update
because the remote is not strictly newer; with commit-SHA-like identifiers
(which the claim says are compared) the `int()` conversion raises and the
handler also returns no update. -/
theorem C8_counterexample :
    check_for_updates true
      (some (200, ⟨"v1.0.0", "https://api.github.com/zipball"⟩)) "2.0.0"
      = none ∧
    stripV "v1.0.0" ≠ "2.0.0" ∧
    check_for_updates true
      (some (200, ⟨"4f2a9c1", "https://api.github.com/zipball"⟩)) "8b3d7e2"
      = none ∧
    ("4f2a9c1" : String) ≠ "8b3d7e2" := by
  refine ⟨by rfl, by decide, by rfl, by decide⟩

/-- C8 amended: `check_for_updates` compares dotted version tags, not commit
SHAs: it returns no update whenever the `v`-stripped remote tag equals the
stored version, and it returns the release descriptor exactly when the
remote tag is strictly newer under componentwise numeric comparison (ties
broken by component count); a differing but not-newer or non-numeric tag
yields no update. -/
theorem C8_amended_version_comparison :
    (∀ (sc : Bool) (st : Nat) (rel : Release) (cur : String),
      stripV rel.tag_name = cur →
      check_for_updates sc (some (st, rel)) cur = none) ∧
    (∀ (rel : Release) (cur : String),
      is_newer_version rel.tag_name cur = some true →
      check_for_updates true (some (200, rel)) cur = some rel) := by
  constructor
  · intro sc st rel cur h
    unfold check_for_updates
    cases sc with
    | false => rfl
    | true =>
      simp only [Bool.not_true, Bool.false_eq_true, if_false]
      by_cases hst : st ≠ 200
      · rw [if_pos hst]
      · rw [if_neg hst]
        cases hn : is_newer_version rel.tag_name cur with
        | none => rfl
        | some b =>
          cases b with
          | false => rfl
          | true => exact absurd hn (is_newer_version_self _ _ h)
  · intro rel cur h
    unfold check_for_updates
    simp only [Bool.not_true, Bool.false_eq_true, if_false]
    rw [if_neg (by simp : ¬ (200 ≠ 200)), h]
    rfl

/-- Closed witness for C8's amended claim: an equal version yields no
update; a strictly newer remote version yields the release descriptor. -/
theorem C8_witness :
    check_for_updates true (some (200, ⟨"v1.0.0", "u"⟩)) "1.0.0" = none ∧
    check_for_updates true (some (200, ⟨"v2.0.0", "u"⟩)) "1.0.0"
      = some ⟨"v2.0.0", "u"⟩ :=
  ⟨C8_amended_version_comparison.1 true 200 ⟨"v1.0.0", "u"⟩ "1.0.0" rfl,
   C8_amended_version_comparison.2 ⟨"v2.0.0", "u"⟩ "1.0.0" (by rfl)⟩

/-- C9 counterexample: a copy failure midway through `_extract_and_update`
leaves the installation partially overwritten, not untouched.  Starting from
an installation holding `focus.py ↦ "old"`, a 200 download whose archive
copies `focus.py` successfully and then fails on `config.py` ends with the
update aborted (`False`) but `focus.py ↦ "new"` and the downloaded
`update.zip` still on disk. -/
theorem C9_counterexample :
    update [("focus.py", "old")] (some (200, "zipbytes"))
      (some [("focus.py", "new"), ("config.py", "cfg")])
      (fun nm => nm == "config.py") "v1.0.0"
      = (false, [("focus.py", "new"), ("update.zip", "zipbytes")]) ∧
    (([("focus.py", "new"), ("update.zip", "zipbytes")] : FS).lookup "focus.py"
      = some "new") ∧
    (([("focus.py", "old")] : FS).lookup "focus.py" = some "old") ∧
    some "new" ≠ some "old" := by
  refine ⟨by rfl, by rfl, by rfl, by decide⟩

/-- C9 amended: every failure aborts the update with `False` and no raised
exception, but there is no rollback: a network exception or a non-200
status leaves the installation unchanged, while a failure during
extraction/copying leaves the state exactly as it was at the raise point
(downloaded archive and already-copied files in place), matching the spec's
"no transactional safety" non-goal. -/
theorem C9_amended_abort_without_rollback :
    (∀ (fs : FS) (archive : Option (List (String × String)))
        (copyFails : String → Bool) (tag : String),
      update fs none archive copyFails tag = (false, fs)) ∧
    (∀ (fs : FS) (st : Nat) (content : String)
        (archive : Option (List (String × String)))
        (copyFails : String → Bool) (tag : String), st ≠ 200 →
      update fs (some (st, content)) archive copyFails tag = (false, fs)) ∧
    (∀ (fs : FS) (content : String)
        (archive : Option (List (String × String)))
        (copyFails : String → Bool) (tag : String) (fsMid : FS),
      extract_and_update (fsSet fs "update.zip" content) archive copyFails
        = .error fsMid →
      update fs (some (200, content)) archive copyFails tag
        = (false, fsMid)) := by
  refine ⟨fun fs archive cf tag => rfl, ?_, ?_⟩
  · intro fs st content archive cf tag h
    show (if st ≠ 200 then (false, fs)
      else (match extract_and_update (fsSet fs "update.zip" content)
          archive cf with
        | Except.error fs2 => (false, fs2)
        | Except.ok fs2 =>
          (true, fsSet (fsRemove fs2 "update.zip") "version.txt"
            (stripV tag)))) = (false, fs)
    rw [if_pos h]
  · intro fs content archive cf tag fsMid h
    show (if (200 : Nat) ≠ 200 then (false, fs)
      else (match extract_and_update (fsSet fs "update.zip" content)
          archive cf with
        | Except.error fs2 => (false, fs2)
        | Except.ok fs2 =>
          (true, fsSet (fsRemove fs2 "update.zip") "version.txt"
            (stripV tag)))) = (false, fsMid)
    rw [if_neg (by simp : ¬ ((200 : Nat) ≠ 200)), h]

/-- Closed witness for C9's amended claim: a 404 download aborts with the
installation unchanged. -/
theorem C9_witness :
    update [("focus.py", "old")] (some (404, "not found")) none
      (fun _ => false) "v1" = (false, [("focus.py", "old")]) :=
  C9_amended_abort_without_rollback.2.1 [("focus.py", "old")] 404 "not found"
    none (fun _ => false) "v1" (by decide)

end CursorFocus
